import Mathlib

/-
Verification of the yosai session persistence layer (src/yosai/session/session_dao.py).

The embedding models the three classes of that file:
  * AbstractSessionDAO   - sanity checks around create/read (lines 40-108)
  * MemorySessionDAO     - in-memory reference store (lines 112-171)
  * CachingSessionDAO    - cache-aside layer over an abstract backing store (lines 174-306)

Python exceptions are modelled by an explicit result type carrying the state at the
moment the exception escapes; Python dicts are modelled as insertion-ordered
association lists.
-/

/-- Exception kinds that can escape the functions of session_dao.py.
The first four are the yosai exception classes raised there; typeError,
attributeError model the built-in Python exceptions raised by bad calls. -/
inductive YosaiError where
  | illegalArgument
  | illegalState
  | unknownSession
  | uncacheSession
  | typeError
  | attributeError
  deriving DecidableEq, Repr

/-- A session object.  session_id is Option-valued: none models Python None.
validating models isinstance(session, ValidatingSession); is_valid is the
value of the is_valid property (only consulted when validating = true).
payload distinguishes session contents. -/
structure Session where
  session_id : Option String
  validating : Bool
  is_valid : Bool
  payload : Nat
  deriving DecidableEq, Repr

/-- Result of running a Python method on a store state: either a normal return
carrying a value and the final state, or an escaping exception carrying the
state at the moment it propagates. -/
inductive PyResult (σ : Type) (α : Type) where
  | ok (v : α) (st : σ)
  | exc (e : YosaiError) (st : σ)
  deriving DecidableEq, Repr

/-- Final state of a method run, whether it returned or raised. -/
def PyResult.state : PyResult σ α → σ
  | .ok _ st => st
  | .exc _ st => st

/-- Python dict lookup (dict.get, returning None when absent). -/
def dget : List (String × Session) → String → Option Session
  | [], _ => none
  | (k, v) :: rest, key => if k = key then some v else dget rest key

/-- Python dict assignment d[k] = v: replaces in place if the key exists,
appends otherwise (insertion order preserved, as in Python dicts). -/
def dput : List (String × Session) → String → Session → List (String × Session)
  | [], key, v => [(key, v)]
  | (k, v0) :: rest, key, v =>
      if k = key then (key, v) :: rest else (k, v0) :: dput rest key v

/-- Removal of a key (dict.pop / cache.remove once the key is known present).
Every pair carrying the key is dropped; a Python dict holds each key at most
once, so on such states this is exactly the removal of its single entry. -/
def dremove : List (String × Session) → String → List (String × Session)
  | [], _ => []
  | (k, v) :: rest, key =>
      if k = key then dremove rest key else (k, v) :: dremove rest key

/-- Python dict.values() as a list, in insertion order. -/
def dvalues (m : List (String × Session)) : List Session :=
  m.map Prod.snd

/-- Modelled from the spec: the session-id generator collaborator
(RandomSessionIDGenerator, imported but not under src/) whose contract is
"generate_id(session) -> unique string".  Modelled deterministically as a
counter-indexed string; the counter lives in the store state. -/
def generate_id (n : Nat) : String :=
  "session_id_" ++ toString n

/-- State of a MemorySessionDAO: the sessions dict (line 134) plus the
counter feeding the modelled id generator. -/
structure MStore where
  sessions : List (String × Session)
  counter : Nat
  deriving DecidableEq, Repr

/-- AbstractSessionDAO.assign_session_id (lines 89-94): rejects a None session
or session_id with IllegalArgumentException, otherwise sets session.session_id.
The mutation is modelled by returning the updated session. -/
def AbstractSessionDAO.assign_session_id (session : Option Session)
    (session_id : Option String) : Except YosaiError Session :=
  match session, session_id with
  | some s, some sid => .ok { s with session_id := some sid }
  | _, _ => .error .illegalArgument

/-- AbstractSessionDAO.verify_session_id (lines 83-87): IllegalStateException
when do_create produced None. -/
def AbstractSessionDAO.verify_session_id (session_id : Option String) :
    Except YosaiError Unit :=
  match session_id with
  | none => .error .illegalState
  | some _ => .ok ()

/-- MemorySessionDAO.store_session (lines 142-149): IllegalArgumentException on a
None session_id or session; otherwise sessions.setdefault(session_id, session),
which stores only when the key is absent and returns the existing entry otherwise. -/
def MemorySessionDAO.store_session (session_id : Option String)
    (session : Option Session) (st : MStore) : PyResult MStore Session :=
  match session_id, session with
  | some sid, some s =>
      match dget st.sessions sid with
      | some existing => .ok existing st
      | none => .ok s { st with sessions := st.sessions ++ [(sid, s)] }
  | _, _ => .exc .illegalArgument st

/-- MemorySessionDAO.do_create (lines 136-140): generate an id, assign it to the
session, store the session under it, return the id. -/
def MemorySessionDAO.do_create (session : Session) (st : MStore) :
    PyResult MStore String :=
  let sid := generate_id st.counter
  let st1 : MStore := { st with counter := st.counter + 1 }
  match AbstractSessionDAO.assign_session_id (some session) (some sid) with
  | .error e => .exc e st1
  | .ok s2 =>
      match MemorySessionDAO.store_session (some sid) (some s2) st1 with
      | .ok _ st2 => .ok sid st2
      | .exc e st2 => .exc e st2

/-- AbstractSessionDAO.create as inherited by MemorySessionDAO (lines 78-81):
do_create then verify_session_id. -/
def MemorySessionDAO.create (session : Session) (st : MStore) :
    PyResult MStore String :=
  match MemorySessionDAO.do_create session st with
  | .exc e st1 => .exc e st1
  | .ok sid st1 =>
      match AbstractSessionDAO.verify_session_id (some sid) with
      | .error e => .exc e st1
      | .ok _ => .ok sid st1

/-- MemorySessionDAO.do_read_session (lines 151-152): sessions.get. -/
def MemorySessionDAO.do_read_session (sessionid : String) (st : MStore) :
    Option Session :=
  dget st.sessions sessionid

/-- AbstractSessionDAO.read_session as inherited by MemorySessionDAO
(lines 100-105): UnknownSessionException when do_read_session finds nothing. -/
def MemorySessionDAO.read_session (session_id : String) (st : MStore) :
    PyResult MStore Session :=
  match MemorySessionDAO.do_read_session session_id st with
  | none => .exc .unknownSession st
  | some s => .ok s st

/-- MemorySessionDAO.update (lines 154-155): store_session(session.session_id,
session) - setdefault semantics, so an existing entry is kept, not overwritten. -/
def MemorySessionDAO.update (session : Session) (st : MStore) :
    PyResult MStore Session :=
  MemorySessionDAO.store_session session.session_id (some session) st

/-- MemorySessionDAO.delete (lines 157-168): sessions.pop(session.session_id);
a KeyError (id absent, including a None id) is caught and only logged. -/
def MemorySessionDAO.delete (session : Session) (st : MStore) : MStore :=
  match session.session_id with
  | some sid =>
      if (dget st.sessions sid).isSome then
        { st with sessions := dremove st.sessions sid }
      else st
  | none => st

/-- MemorySessionDAO.get_active_sessions (lines 170-171). -/
def MemorySessionDAO.get_active_sessions (st : MStore) : List Session :=
  dvalues st.sessions

/-- An invocation of one of the abstract backing-store operations of
CachingSessionDAO (do_create / do_update / do_delete), recorded so that
theorems can state that the backing store was written. -/
inductive BackingOp where
  | opDoCreate (s : Session)
  | opDoUpdate (s : Session)
  | opDoDelete (s : Session)
  deriving DecidableEq, Repr

/-- State of a CachingSessionDAO.  hasCacheManager: whether a cache manager is
configured (self.cache_manager is not None and yields a cache).  activeSessions:
self.active_sessions, the lazily created cache (none = Python None).  backing:
the EIS record map maintained by the abstract do_ methods, modelled after the
memory reference implementation.  log: the invocations of the abstract do_
methods, in order.  counter feeds the modelled id generator. -/
structure CStore where
  hasCacheManager : Bool
  activeSessions : Option (List (String × Session))
  backing : List (String × Session)
  log : List BackingOp
  counter : Nat
  deriving DecidableEq, Repr

/-- CachingSessionDAO.create_active_sessions_cache (lines 220-226):
cache_manager.get_cache(name) under a bare except returning None, so with no
cache manager configured (AttributeError on None.get_cache) the result is None;
with a manager it yields the manager's cache, modelled as a fresh empty cache. -/
def CachingSessionDAO.create_active_sessions_cache (st : CStore) :
    Option (List (String × Session)) :=
  if st.hasCacheManager then some [] else none

/-- CachingSessionDAO.get_active_sessions_cache_lazy (lines 214-218): create and
memoize the cache in self.active_sessions on first use, then return it. -/
def CachingSessionDAO.get_active_sessions_cache_lazy (st : CStore) :
    Option (List (String × Session)) × CStore :=
  match st.activeSessions with
  | some c => (some c, st)
  | none =>
      let c := CachingSessionDAO.create_active_sessions_cache st
      (c, { st with activeSessions := c })

/-- CachingSessionDAO.get_cached_session (lines 234-240): with a None sessionid
returns None; otherwise obtains the lazy cache and calls cache.get(sessionid).
When no cache is obtainable the lazy getter returns None and cache.get is an
attribute access on None, raising an uncaught AttributeError. -/
def CachingSessionDAO.get_cached_session (sessionid : Option String)
    (st : CStore) : PyResult CStore (Option Session) :=
  match sessionid with
  | none => .ok none st
  | some sid =>
      match CachingSessionDAO.get_active_sessions_cache_lazy st with
      | (none, st1) => .exc .attributeError st1
      | (some m, st1) => .ok (dget m sid) st1

/-- CachingSessionDAO.cache, the method body as declared at lines 242-254 with
parameters (session, sessionid, cache=None): returns silently when session or
sessionid is None; otherwise obtains the lazy cache and runs cache.put under a
try that swallows AttributeError (the no-cache case). -/
def CachingSessionDAO.cache (session : Option Session) (sessionid : Option String)
    (st : CStore) : CStore :=
  match session, sessionid with
  | some s, some sid =>
      match CachingSessionDAO.get_active_sessions_cache_lazy st with
      | (none, st1) => st1
      | (some m, st1) => { st1 with activeSessions := some (dput m sid s) }
  | _, _ => st

/-- The call sites at lines 230, 267 and 272 invoke the cache method as
self.cache(session=..., session_id=...), but the method declares its second
parameter as sessionid (line 242).  Python rejects the unknown keyword
argument session_id with a TypeError before the method body runs, leaving the
store state unchanged. -/
def CachingSessionDAO.cache_call_mismatched_kw (st : CStore) :
    PyResult CStore Unit :=
  .exc .typeError st

/-- Modelled from the spec: do_create of the concrete subclass backing a
CachingSessionDAO is abstract in the sources (line 96); modelled after the
memory reference implementation that the spec designates (generate an id,
assign it, store the session under it in the backing map) with the invocation
logged. -/
def CachingSessionDAO.do_create (session : Session) (st : CStore) :
    PyResult CStore String :=
  let sid := generate_id st.counter
  let s2 : Session := { session with session_id := some sid }
  let st1 : CStore := { st with counter := st.counter + 1,
                                log := st.log ++ [BackingOp.opDoCreate s2] }
  match dget st1.backing sid with
  | some _ => .ok sid st1
  | none => .ok sid { st1 with backing := st1.backing ++ [(sid, s2)] }

/-- CachingSessionDAO.create (lines 228-231): sessionid = super().create(session)
(do_create then verify_session_id), then self.cache(session=session,
session_id=sessionid) - a call that raises TypeError (keyword mismatch), so the
method never reaches its return statement. -/
def CachingSessionDAO.create (session : Session) (st : CStore) :
    PyResult CStore String :=
  match CachingSessionDAO.do_create session st with
  | .exc e st1 => .exc e st1
  | .ok sid st1 =>
      match AbstractSessionDAO.verify_session_id (some sid) with
      | .error e => .exc e st1
      | .ok _ =>
          match CachingSessionDAO.cache_call_mismatched_kw st1 with
          | .exc e st2 => .exc e st2
          | .ok _ st2 => .ok sid st2

/-- Modelled from the spec: do_read_session of the concrete subclass is abstract
in the sources (lines 107-109); modelled after the memory reference
implementation (backing.get). -/
def CachingSessionDAO.do_read_session (sessionid : String) (st : CStore) :
    Option Session :=
  dget st.backing sessionid

/-- CachingSessionDAO.read_session (lines 256-261): try the cache via
get_cached_session; on a miss fall back to super().read_session (lines 100-105),
which raises UnknownSessionException when the backing store has no record.
The found backing value is returned as is - the cache is not populated. -/
def CachingSessionDAO.read_session (sessionid : String) (st : CStore) :
    PyResult CStore Session :=
  match CachingSessionDAO.get_cached_session (some sessionid) st with
  | .exc e st1 => .exc e st1
  | .ok (some s) st1 => .ok s st1
  | .ok none st1 =>
      match CachingSessionDAO.do_read_session sessionid st1 with
      | none => .exc .unknownSession st1
      | some s => .ok s st1

/-- Modelled from the spec: do_update of the concrete subclass is abstract in the
sources (lines 274-276); per the spec it always writes the backing store.  The
invocation is logged and the record written through. -/
def CachingSessionDAO.do_update (session : Session) (st : CStore) : CStore :=
  { st with log := st.log ++ [BackingOp.opDoUpdate session],
            backing := match session.session_id with
                       | some sid => dput st.backing sid session
                       | none => st.backing }

/-- CachingSessionDAO.uncache (lines 286-298): read session.session_id, obtain
the lazy cache, cache.remove(sessionid).  An AttributeError (no cache obtainable,
remove on None) is caught and only logged; a KeyError (id absent from the cache,
including a None id, per the spec contract remove(key) raises if absent) is
translated into UncacheSessionException. -/
def CachingSessionDAO.uncache (session : Session) (st : CStore) :
    PyResult CStore Unit :=
  match CachingSessionDAO.get_active_sessions_cache_lazy st with
  | (none, st1) => .ok () st1
  | (some m, st1) =>
      match session.session_id with
      | none => .exc .uncacheSession st1
      | some sid =>
          if (dget m sid).isSome then
            .ok () { st1 with activeSessions := some (dremove m sid) }
          else .exc .uncacheSession st1

/-- CachingSessionDAO.update (lines 263-272): do_update always runs first; then
for a valid ValidatingSession or a non-validating session the code calls
self.cache(session=..., session_id=...), which raises TypeError (keyword
mismatch); for an invalid ValidatingSession it calls uncache. -/
def CachingSessionDAO.update (session : Session) (st : CStore) :
    PyResult CStore Unit :=
  let st1 := CachingSessionDAO.do_update session st
  if session.validating then
    if session.is_valid then CachingSessionDAO.cache_call_mismatched_kw st1
    else CachingSessionDAO.uncache session st1
  else CachingSessionDAO.cache_call_mismatched_kw st1

/-- Modelled from the spec: do_delete of the concrete subclass is abstract in the
sources (lines 282-284); modelled after the memory reference delete (remove the
record from the backing map) with the invocation logged. -/
def CachingSessionDAO.do_delete (session : Session) (st : CStore) : CStore :=
  { st with log := st.log ++ [BackingOp.opDoDelete session],
            backing := match session.session_id with
                       | some sid => dremove st.backing sid
                       | none => st.backing }

/-- CachingSessionDAO.delete (lines 278-280): uncache first, then do_delete.
An exception escaping uncache aborts the method before do_delete runs. -/
def CachingSessionDAO.delete (session : Session) (st : CStore) :
    PyResult CStore Unit :=
  match CachingSessionDAO.uncache session st with
  | .ok _ st1 => .ok () (CachingSessionDAO.do_delete session st1)
  | .exc e st1 => .exc e st1

/-- CachingSessionDAO.get_active_sessions (lines 300-306): tuple(cache.values())
of the lazy cache; an AttributeError (no cache obtainable) yields the empty
tuple. -/
def CachingSessionDAO.get_active_sessions (st : CStore) :
    List Session × CStore :=
  match CachingSessionDAO.get_active_sessions_cache_lazy st with
  | (none, st1) => ([], st1)
  | (some m, st1) => (dvalues m, st1)

/-- Whether the cache of a CachingSessionDAO currently holds an entry for the
given id (false when no cache exists or the id is None). -/
def cacheHasEntry (st : CStore) (sid : Option String) : Bool :=
  match st.activeSessions, sid with
  | some m, some k => (dget m k).isSome
  | _, _ => false

/-- A valid ValidatingSession carrying id s1. -/
def sessValid : Session :=
  { session_id := some "s1", validating := true, is_valid := true, payload := 1 }

/-- An invalid ValidatingSession carrying id s1. -/
def sessInvalid : Session :=
  { session_id := some "s1", validating := true, is_valid := false, payload := 2 }

/-- A plain (non-validating) session carrying id s1. -/
def sessPlain : Session :=
  { session_id := some "s1", validating := false, is_valid := false, payload := 3 }

/-- A distinct session value stored under id s1 in sample backing stores. -/
def sessStored : Session :=
  { session_id := some "s1", validating := false, is_valid := false, payload := 4 }

/-- A fresh CachingSessionDAO with a cache manager configured. -/
def freshC : CStore :=
  { hasCacheManager := true, activeSessions := none, backing := [], log := [],
    counter := 0 }

/-- A CachingSessionDAO with a created, empty cache and s1 in the backing store. -/
def cachedEmptyC : CStore :=
  { hasCacheManager := true, activeSessions := some [],
    backing := [("s1", sessStored)], log := [], counter := 0 }

/-- A CachingSessionDAO whose cache and backing store both hold s1. -/
def cachedWithS1 : CStore :=
  { hasCacheManager := true, activeSessions := some [("s1", sessStored)],
    backing := [("s1", sessStored)], log := [], counter := 0 }

/-- A CachingSessionDAO with no cache manager and s1 in the backing store. -/
def noMgrC : CStore :=
  { hasCacheManager := false, activeSessions := none,
    backing := [("s1", sessStored)], log := [], counter := 0 }

/-- A fresh MemorySessionDAO. -/
def memFresh : MStore := { sessions := [], counter := 0 }

/-- The MemorySessionDAO state after creating sessPlain in memFresh. -/
def memAfter : MStore :=
  { sessions := [("session_id_0",
      { sessPlain with session_id := some "session_id_0" })], counter := 1 }

/-- A session stored under key a in sample memory stores. -/
def sessOldA : Session :=
  { session_id := some "a", validating := false, is_valid := false, payload := 10 }

/-- A different session carrying the same id a. -/
def sessNewA : Session :=
  { session_id := some "a", validating := false, is_valid := false, payload := 11 }

/-- A MemorySessionDAO already holding sessOldA under key a. -/
def mA : MStore := { sessions := [("a", sessOldA)], counter := 0 }

/-- Looking up a key after removing it finds nothing. -/
theorem dget_dremove_self (m : List (String × Session)) (k : String) :
    dget (dremove m k) k = none := by
  induction m with
  | nil => rfl
  | cons p rest ih =>
      obtain ⟨k0, v0⟩ := p
      by_cases h : k0 = k
      · simp [dremove, h, ih]
      · simp [dremove, dget, h, ih]

/-- The lazy cache getter never touches the operation log. -/
theorem lazy_snd_log (st : CStore) :
    (CachingSessionDAO.get_active_sessions_cache_lazy st).2.log = st.log := by
  cases h : st.activeSessions <;>
    simp [CachingSessionDAO.get_active_sessions_cache_lazy, h]

/-- After the lazy getter runs, the stored cache equals the returned cache. -/
theorem lazy_snd_active (st : CStore) :
    (CachingSessionDAO.get_active_sessions_cache_lazy st).2.activeSessions =
      (CachingSessionDAO.get_active_sessions_cache_lazy st).1 := by
  cases h : st.activeSessions <;>
    simp [CachingSessionDAO.get_active_sessions_cache_lazy, h]

/-- C1: the claim fails on the code.  update on a valid ValidatingSession does
invoke do_update (the backing store is written) but then raises TypeError from
the call self.cache(session=..., session_id=...) - the method parameter is named
sessionid - so the cache afterwards has no entry for the session_id; the same
TypeError hits a non-validating session. -/
theorem c1_update_writes_backing_then_raises_type_error :
    CachingSessionDAO.update sessValid freshC =
      PyResult.exc YosaiError.typeError (CachingSessionDAO.do_update sessValid freshC)
    ∧ (CachingSessionDAO.do_update sessValid freshC).log =
        [BackingOp.opDoUpdate sessValid]
    ∧ cacheHasEntry (CachingSessionDAO.update sessValid freshC).state (some "s1") = false
    ∧ CachingSessionDAO.update sessPlain freshC =
        PyResult.exc YosaiError.typeError (CachingSessionDAO.do_update sessPlain freshC) :=
  ⟨rfl, rfl, rfl, rfl⟩

/-- C2 counterexample: with a configured (empty) cache and the session present in
the backing store, read_session returns the backing value but leaves the store
state - in particular the cache - unchanged, so the claim that the cache is
populated with the found value before returning is false at this input. -/
theorem c2_read_miss_leaves_cache_unpopulated :
    CachingSessionDAO.read_session "s1" cachedEmptyC = PyResult.ok sessStored cachedEmptyC
    ∧ ¬ cacheHasEntry (CachingSessionDAO.read_session "s1" cachedEmptyC).state
          (some "s1") = true := by
  exact ⟨rfl, by decide⟩

/-- C3: the claim fails on the code.  create delegates to the backing create (the
record is stored under the generated id) but the subsequent mismatched-keyword
cache call raises TypeError, so the session id is never returned to the caller
and the cache is never populated. -/
theorem c3_create_raises_type_error_after_backing_create :
    CachingSessionDAO.create sessPlain freshC =
      PyResult.exc YosaiError.typeError (CachingSessionDAO.create sessPlain freshC).state
    ∧ dget (CachingSessionDAO.create sessPlain freshC).state.backing "session_id_0" =
        some { sessPlain with session_id := some "session_id_0" }
    ∧ (CachingSessionDAO.create sessPlain freshC).state.activeSessions = none :=
  ⟨rfl, rfl, rfl⟩

/-- C4 counterexample: uncache on a configured cache holding no entry for the
session's id raises UncacheSessionException, and get_cached_session with no
cache manager raises AttributeError - both contradict the claim that these
cache-layer soft failures complete without raising. -/
theorem c4_uncache_miss_and_cacheless_get_raise :
    CachingSessionDAO.uncache sessValid cachedEmptyC =
      PyResult.exc YosaiError.uncacheSession cachedEmptyC
    ∧ CachingSessionDAO.get_cached_session (some "s1") noMgrC =
        PyResult.exc YosaiError.attributeError noMgrC :=
  ⟨rfl, rfl⟩

/-- C5: the claim fails on the code.  With no cache manager configured,
read_session raises AttributeError (cache.get on None in get_cached_session),
update and create raise TypeError (mismatched keyword in the cache call); only
delete and get_active_sessions degrade gracefully. -/
theorem c5_no_cache_manager_breaks_read_update_create :
    CachingSessionDAO.read_session "s1" noMgrC =
      PyResult.exc YosaiError.attributeError noMgrC
    ∧ CachingSessionDAO.update sessPlain noMgrC =
        PyResult.exc YosaiError.typeError (CachingSessionDAO.do_update sessPlain noMgrC)
    ∧ CachingSessionDAO.create sessPlain noMgrC =
        PyResult.exc YosaiError.typeError (CachingSessionDAO.create sessPlain noMgrC).state
    ∧ CachingSessionDAO.delete sessStored noMgrC =
        PyResult.ok () (CachingSessionDAO.do_delete sessStored noMgrC)
    ∧ (CachingSessionDAO.get_active_sessions noMgrC).1 = [] :=
  ⟨rfl, rfl, rfl, rfl, rfl⟩

/-- C7 counterexample: with a different session already stored under the same id,
update returns the existing entry and leaves the mapping unchanged - the claim
that the backing mapping afterwards holds the updated session is false here. -/
theorem c7_update_keeps_existing_entry :
    MemorySessionDAO.update sessNewA mA = PyResult.ok sessOldA mA
    ∧ ¬ dget (MemorySessionDAO.update sessNewA mA).state.sessions "a" = some sessNewA := by
  exact ⟨rfl, by decide⟩

/-- C8: the round trip fails on the caching store, whose create raises TypeError
from the mismatched-keyword cache call before returning the id; on the memory
reference store the round trip holds - create then read returns the very session,
carrying the id create assigned to it. -/
theorem c8_round_trip_broken_on_caching_store :
    CachingSessionDAO.create sessValid freshC =
      PyResult.exc YosaiError.typeError (CachingSessionDAO.create sessValid freshC).state
    ∧ MemorySessionDAO.create sessPlain memFresh = PyResult.ok "session_id_0" memAfter
    ∧ MemorySessionDAO.read_session "session_id_0" memAfter =
        PyResult.ok { sessPlain with session_id := some "session_id_0" } memAfter :=
  ⟨rfl, rfl, rfl⟩

/-- C2 (amended): with a cache configured, read_session returns a cache hit
directly; on a miss it reads the backing store, raising UnknownSessionException
when the id is absent there too; the found backing value is returned with the
store state unchanged - in particular the cache is not populated. -/
theorem c2_read_cache_first_then_backing_unpopulated (sid : String) (st : CStore)
    (m : List (String × Session)) (hact : st.activeSessions = some m) :
    (∀ s, dget m sid = some s →
        CachingSessionDAO.read_session sid st = PyResult.ok s st)
    ∧ (dget m sid = none →
        (∀ s, dget st.backing sid = some s →
            CachingSessionDAO.read_session sid st = PyResult.ok s st)
        ∧ (dget st.backing sid = none →
            CachingSessionDAO.read_session sid st =
              PyResult.exc YosaiError.unknownSession st)) := by
  refine ⟨?_, fun hm => ⟨?_, ?_⟩⟩
  · intro s hs
    simp [CachingSessionDAO.read_session, CachingSessionDAO.get_cached_session,
          CachingSessionDAO.get_active_sessions_cache_lazy, hact, hs]
  · intro s hb
    simp [CachingSessionDAO.read_session, CachingSessionDAO.get_cached_session,
          CachingSessionDAO.get_active_sessions_cache_lazy,
          CachingSessionDAO.do_read_session, hact, hm, hb]
  · intro hb
    simp [CachingSessionDAO.read_session, CachingSessionDAO.get_cached_session,
          CachingSessionDAO.get_active_sessions_cache_lazy,
          CachingSessionDAO.do_read_session, hact, hm, hb]

/-- Witness for the amended C2 theorem at a concrete store: the miss on the empty
cache falls through to the backing store and returns its record. -/
theorem c2_read_cache_first_witness :
    CachingSessionDAO.read_session "s1" cachedEmptyC = PyResult.ok sessStored cachedEmptyC :=
  ((c2_read_cache_first_then_backing_unpopulated "s1" cachedEmptyC [] rfl).2 rfl).1
    sessStored rfl

/-- C4 (amended): with no cache manager configured, uncache and cache complete
without raising; but uncache on a configured cache holding no entry for the
session's id raises UncacheSessionException. -/
theorem c4_cache_soft_failures_scoped (s : Session) (st : CStore) :
    (st.hasCacheManager = false → st.activeSessions = none →
        CachingSessionDAO.uncache s st = PyResult.ok () st
        ∧ CachingSessionDAO.cache (some s) s.session_id st = st)
    ∧ (∀ m k, st.activeSessions = some m → s.session_id = some k →
        dget m k = none →
        CachingSessionDAO.uncache s st = PyResult.exc YosaiError.uncacheSession st) := by
  constructor
  · intro hmgr hact
    cases st with
    | mk mgr act backing log counter =>
        simp only at hmgr hact
        subst hmgr
        subst hact
        constructor
        · simp [CachingSessionDAO.uncache, CachingSessionDAO.get_active_sessions_cache_lazy,
                CachingSessionDAO.create_active_sessions_cache]
        · cases hsid : s.session_id with
          | none => simp [CachingSessionDAO.cache, hsid]
          | some k =>
              simp [CachingSessionDAO.cache, hsid,
                    CachingSessionDAO.get_active_sessions_cache_lazy,
                    CachingSessionDAO.create_active_sessions_cache]
  · intro m k hact2 hsid hmk
    simp [CachingSessionDAO.uncache, CachingSessionDAO.get_active_sessions_cache_lazy,
          hact2, hsid, hmk]

/-- Witness for the amended C4 theorem: uncache degrades to a no-op with no cache
manager, and raises UncacheSessionException on a miss in a configured cache. -/
theorem c4_cache_soft_failures_witness :
    CachingSessionDAO.uncache sessValid noMgrC = PyResult.ok () noMgrC
    ∧ CachingSessionDAO.uncache sessValid cachedEmptyC =
        PyResult.exc YosaiError.uncacheSession cachedEmptyC :=
  ⟨((c4_cache_soft_failures_scoped sessValid noMgrC).1 rfl rfl).1,
   (c4_cache_soft_failures_scoped sessValid cachedEmptyC).2 [] "s1" rfl rfl rfl⟩

/-- C6: delete evicts from the cache before invoking the backing delete.  When
uncache completes normally, the intermediate state handed to do_delete holds no
cache entry for the session's id and delete is exactly do_delete on that evicted
state; when uncache raises, delete propagates the exception and the backing
delete is never invoked (the operation log is untouched). -/
theorem c6_delete_evicts_cache_before_backing_delete (s : Session) (st : CStore) :
    (∀ st1, CachingSessionDAO.uncache s st = PyResult.ok () st1 →
        cacheHasEntry st1 s.session_id = false
        ∧ CachingSessionDAO.delete s st =
            PyResult.ok () (CachingSessionDAO.do_delete s st1))
    ∧ (∀ e st1, CachingSessionDAO.uncache s st = PyResult.exc e st1 →
        CachingSessionDAO.delete s st = PyResult.exc e st1 ∧ st1.log = st.log) := by
  have hlog := lazy_snd_log st
  have hactive := lazy_snd_active st
  rcases hp : CachingSessionDAO.get_active_sessions_cache_lazy st with ⟨c, st2⟩
  rw [hp] at hlog hactive
  simp only at hlog hactive
  cases c with
  | none =>
      have hu : CachingSessionDAO.uncache s st = PyResult.ok () st2 := by
        simp [CachingSessionDAO.uncache, hp]
      constructor
      · intro st1 h
        rw [hu] at h
        injection h with h1 h2
        subst h2
        refine ⟨?_, by simp [CachingSessionDAO.delete, hu]⟩
        cases s.session_id <;> simp [cacheHasEntry, hactive]
      · intro e st1 h
        rw [hu] at h
        simp at h
  | some m =>
      cases hsid : s.session_id with
      | none =>
          have hu : CachingSessionDAO.uncache s st =
              PyResult.exc YosaiError.uncacheSession st2 := by
            simp [CachingSessionDAO.uncache, hp, hsid]
          constructor
          · intro st1 h
            rw [hu] at h
            simp at h
          · intro e st1 h
            rw [hu] at h
            injection h with h1 h2
            subst h1
            subst h2
            exact ⟨by simp [CachingSessionDAO.delete, hu], hlog⟩
      | some k =>
          cases hk : dget m k with
          | some v =>
              have hu : CachingSessionDAO.uncache s st =
                  PyResult.ok () { st2 with activeSessions := some (dremove m k) } := by
                simp [CachingSessionDAO.uncache, hp, hsid, hk]
              constructor
              · intro st1 h
                rw [hu] at h
                injection h with h1 h2
                subst h2
                refine ⟨?_, by simp [CachingSessionDAO.delete, hu]⟩
                simp [cacheHasEntry, hsid, dget_dremove_self]
              · intro e st1 h
                rw [hu] at h
                simp at h
          | none =>
              have hu : CachingSessionDAO.uncache s st =
                  PyResult.exc YosaiError.uncacheSession st2 := by
                simp [CachingSessionDAO.uncache, hp, hsid, hk]
              constructor
              · intro st1 h
                rw [hu] at h
                simp at h
              · intro e st1 h
                rw [hu] at h
                injection h with h1 h2
                subst h1
                subst h2
                exact ⟨by simp [CachingSessionDAO.delete, hu], hlog⟩

/-- Witness for the C6 theorem at a concrete store whose cache holds the session:
the state handed to do_delete has the entry evicted. -/
theorem c6_delete_evicts_witness :
    cacheHasEntry { cachedWithS1 with activeSessions := some [] } sessValid.session_id
      = false
    ∧ CachingSessionDAO.delete sessValid cachedWithS1 =
        PyResult.ok ()
          (CachingSessionDAO.do_delete sessValid
            { cachedWithS1 with activeSessions := some [] }) :=
  (c6_delete_evicts_cache_before_backing_delete sessValid cachedWithS1).1
    { cachedWithS1 with activeSessions := some [] } rfl

/-- C7 (amended): update delegates to store_session with setdefault semantics.
A None session_id raises IllegalArgumentException; an id absent from the backing
mapping stores the session; an id already present leaves the mapping unchanged
and returns the existing session. -/
theorem c7_update_has_setdefault_semantics (s : Session) (st : MStore) :
    (s.session_id = none →
        MemorySessionDAO.update s st = PyResult.exc YosaiError.illegalArgument st)
    ∧ (∀ k, s.session_id = some k →
        (dget st.sessions k = none →
            MemorySessionDAO.update s st =
              PyResult.ok s { st with sessions := st.sessions ++ [(k, s)] })
        ∧ (∀ ex, dget st.sessions k = some ex →
            MemorySessionDAO.update s st = PyResult.ok ex st)) := by
  refine ⟨?_, fun k hk => ⟨?_, ?_⟩⟩
  · intro h
    simp [MemorySessionDAO.update, MemorySessionDAO.store_session, h]
  · intro hm
    simp [MemorySessionDAO.update, MemorySessionDAO.store_session, hk, hm]
  · intro ex hm
    simp [MemorySessionDAO.update, MemorySessionDAO.store_session, hk, hm]

/-- Witness for the amended C7 theorem: updating with a second session under an
already-present id returns the first session and leaves the store unchanged. -/
theorem c7_update_setdefault_witness :
    MemorySessionDAO.update sessNewA mA = PyResult.ok sessOldA mA :=
  ((c7_update_has_setdefault_semantics sessNewA mA).2 "a" rfl).2 sessOldA rfl

/-- C9: do_create assigns the freshly generated id to the session before storing
it - the persisted entry carries exactly that id, which is also the value
returned to the caller; a store in which every persisted session carries an id
keeps that invariant across do_create; and assign_session_id and store_session
each reject None parameters with IllegalArgumentException, so a session with no
session_id is never persisted. -/
theorem c9_session_id_assigned_once_before_persist (session : Session)
    (st : MStore) (sid : Option String) (s : Option Session) :
    (dget st.sessions (generate_id st.counter) = none →
        MemorySessionDAO.do_create session st =
          PyResult.ok (generate_id st.counter)
            { sessions := st.sessions ++
                [(generate_id st.counter,
                  { session with session_id := some (generate_id st.counter) })],
              counter := st.counter + 1 })
    ∧ ((∀ p ∈ st.sessions, p.2.session_id ≠ none) →
        ∀ p ∈ (MemorySessionDAO.do_create session st).state.sessions,
          p.2.session_id ≠ none)
    ∧ AbstractSessionDAO.assign_session_id none sid =
        Except.error YosaiError.illegalArgument
    ∧ AbstractSessionDAO.assign_session_id s none =
        Except.error YosaiError.illegalArgument
    ∧ MemorySessionDAO.store_session none s st = PyResult.exc YosaiError.illegalArgument st
    ∧ MemorySessionDAO.store_session sid none st =
        PyResult.exc YosaiError.illegalArgument st := by
  refine ⟨?_, ?_, ?_, ?_, ?_, ?_⟩
  · intro h
    simp [MemorySessionDAO.do_create, AbstractSessionDAO.assign_session_id,
          MemorySessionDAO.store_session, h]
  · intro hinv p hp
    cases hcol : dget st.sessions (generate_id st.counter) with
    | some ex =>
        simp only [MemorySessionDAO.do_create, AbstractSessionDAO.assign_session_id,
          MemorySessionDAO.store_session, hcol, PyResult.state] at hp
        exact hinv p hp
    | none =>
        simp only [MemorySessionDAO.do_create, AbstractSessionDAO.assign_session_id,
          MemorySessionDAO.store_session, hcol, PyResult.state] at hp
        rcases List.mem_append.mp hp with hold | hnew
        · exact hinv p hold
        · rcases List.mem_singleton.mp hnew with rfl
          simp
  · cases sid <;> rfl
  · cases s <;> rfl
  · cases s <;> rfl
  · cases sid <;> rfl

/-- Witness for the C9 theorem on a fresh memory store: do_create persists the
session under the generated id with that id assigned, and the no-idless-session
invariant holds of the resulting store. -/
theorem c9_session_id_witness :
    MemorySessionDAO.do_create sessPlain memFresh =
      PyResult.ok (generate_id 0)
        { sessions := [(generate_id 0,
            { sessPlain with session_id := some (generate_id 0) })], counter := 1 }
    ∧ ∀ p ∈ (MemorySessionDAO.do_create sessPlain memFresh).state.sessions,
        p.2.session_id ≠ none := by
  have h := c9_session_id_assigned_once_before_persist sessPlain memFresh none none
  exact ⟨h.1 rfl, h.2.1 (by intro p hp; simp [memFresh] at hp)⟩

/-- C10: get_active_sessions enumerates the cache, not the backing store.  With a
cache present the result is exactly the cache's values, independent of the
backing records; with no cache in place the result is empty regardless of the
backing store; and every returned session is a value of the cache, so a session
present only in the backing store never appears. -/
theorem c10_get_active_sessions_reads_cache_only (st : CStore) :
    (∀ m, st.activeSessions = some m →
        CachingSessionDAO.get_active_sessions st = (dvalues m, st))
    ∧ (st.activeSessions = none → (CachingSessionDAO.get_active_sessions st).1 = [])
    ∧ (∀ s, s ∈ (CachingSessionDAO.get_active_sessions st).1 →
        ∃ m, st.activeSessions = some m ∧ s ∈ dvalues m) := by
  refine ⟨?_, ?_, ?_⟩
  · intro m hm
    simp [CachingSessionDAO.get_active_sessions,
          CachingSessionDAO.get_active_sessions_cache_lazy, hm]
  · intro hn
    cases hmgr : st.hasCacheManager <;>
      simp [CachingSessionDAO.get_active_sessions,
            CachingSessionDAO.get_active_sessions_cache_lazy,
            CachingSessionDAO.create_active_sessions_cache, hn, hmgr, dvalues]
  · intro s hs
    cases hact : st.activeSessions with
    | some m =>
        refine ⟨m, rfl, ?_⟩
        simpa [CachingSessionDAO.get_active_sessions,
               CachingSessionDAO.get_active_sessions_cache_lazy, hact] using hs
    | none =>
        cases hmgr : st.hasCacheManager <;>
          simp [CachingSessionDAO.get_active_sessions,
                CachingSessionDAO.get_active_sessions_cache_lazy,
                CachingSessionDAO.create_active_sessions_cache,
                hact, hmgr, dvalues] at hs

/-- Witness for the C10 theorem: with an empty cache over a non-empty backing
store the result is empty, and likewise when no cache is obtainable. -/
theorem c10_get_active_sessions_witness :
    CachingSessionDAO.get_active_sessions cachedEmptyC = ([], cachedEmptyC)
    ∧ (CachingSessionDAO.get_active_sessions noMgrC).1 = [] :=
  ⟨(c10_get_active_sessions_reads_cache_only cachedEmptyC).1 [] rfl,
   (c10_get_active_sessions_reads_cache_only noMgrC).2.1 rfl⟩
